import Mathlib

/-!
Verification development for the food-assistance chat backend.

The Python source (backend/routers/ai.py, backend/langgraph_workflow.py,
backend/main.py, backend/fulfillment.py, backend/supabase_client.py) is
shallowly embedded below:

* string helpers mirror the Python `str` methods that the handler uses
  (`strip`, `lower`, `split`, `isalpha`, `replace(" ", "")`);
* a small backtracking regex engine (leftmost match, alternation tried in
  order, greedy repetition) models `re.search` for the concrete patterns of
  `extract_name`, `extract_age` and the location extraction, including the
  effect of `re.IGNORECASE` (under which `[A-Z]` and `[a-z]` both match any
  ASCII letter);
* the per-session conversation state machine of `chat_with_ai` is a pure
  step function on a `Session` record, with the outcomes of the external
  Supabase and webhook calls supplied by an `Env` oracle;
* the graph variant's `collect_user_info` / `router_node` /
  `trigger_fulfillment` are embedded separately for comparison.
-/

/-! ## Python string helpers -/

/-- Python `\s` (ASCII part): space, tab, newline, carriage return,
vertical tab, form feed. -/
def isSpaceC (c : Char) : Bool :=
  c = ' ' || c = '\t' || c = '\n' || c = '\r' || c = Char.ofNat 11 || c = Char.ofNat 12

/-- ASCII letter; this is what both `[A-Z]` and `[a-z]` match under
`re.IGNORECASE`. -/
def isLetterC (c : Char) : Bool := c.isAlpha

/-- Python `\d` (ASCII part). -/
def isDigitC (c : Char) : Bool := c.isDigit

/-- Python `\w` (ASCII part): letters, digits, underscore. -/
def isWordC (c : Char) : Bool := c.isAlphanum || c = '_'

/-- Python `str.strip()`. -/
def pyStrip (s : String) : String :=
  String.mk (((s.toList.dropWhile isSpaceC).reverse.dropWhile isSpaceC).reverse)

/-- Python `str.lower()` (ASCII). -/
def pyLower (s : String) : String :=
  String.mk (s.toList.map Char.toLower)

/-- Worker for `pySplit`: current word accumulator is kept reversed. -/
def splitWsGo : List Char → List Char → List (List Char)
  | [], cur => if cur.isEmpty then [] else [cur.reverse]
  | c :: cs, cur =>
    if isSpaceC c then
      if cur.isEmpty then splitWsGo cs [] else cur.reverse :: splitWsGo cs []
    else splitWsGo cs (c :: cur)

/-- Python `str.split()` with no argument: split on whitespace runs,
dropping empty pieces. -/
def pySplit (s : String) : List String :=
  (splitWsGo s.toList []).map String.mk

/-- Python `str.isalpha()` (ASCII): non-empty and all letters. -/
def pyIsAlphaStr (s : String) : Bool :=
  !s.toList.isEmpty && s.toList.all isLetterC

/-- Python `text.replace(" ", "")`: remove space characters (only `' '`). -/
def removeSpaces (s : String) : String :=
  String.mk (s.toList.filter (fun c => c ≠ ' '))

/-- Python `int()` on a non-empty digit string. -/
def digitsToNat (l : List Char) : Nat :=
  l.foldl (fun a c => a * 10 + (c.toNat - ('0').toNat)) 0

/-- Leftmost maximal run of digits, as produced by
`re.findall(r"\d+", s)[0]` when it exists. -/
def firstNumRun : List Char → Option (List Char)
  | [] => none
  | c :: cs => if isDigitC c then some (c :: cs.takeWhile isDigitC) else firstNumRun cs

/-- First number occurring in the text (`re.findall(r"\d+", msg)` then
`int(numbers[0])`). -/
def firstNumber (s : String) : Option Nat :=
  (firstNumRun s.toList).map digitsToNat

/-- Python truthiness of an optional string: `None` and `""` are falsy. -/
def truthyS : Option String → Bool
  | none => false
  | some s => !(s == "")

/-- Python truthiness of an optional integer: `None` and `0` are falsy. -/
def truthyAge : Option Nat → Bool
  | none => false
  | some n => !(n == 0)

/-! ## A small backtracking regex engine

It implements exactly the semantics `re.search` gives the patterns used by
the source: leftmost match wins, alternatives are tried in written order,
repetition is greedy with backtracking, and there is (at most) one capturing
group per pattern. -/

/-- Regex abstract syntax: only the constructs the source patterns use. -/
inductive RE where
  | eps : RE
  | cls : (Char → Bool) → RE
  | litCI : List Char → RE
  | seq : RE → RE → RE
  | alt : RE → RE → RE
  | opt : RE → RE
  | reps : (Char → Bool) → Nat → Option Nat → RE
  | bos : RE
  | eos : RE
  | bnd : RE
  | grp : RE → RE

/-- Last character of `consumed`, falling back to the previous character;
used to maintain the one-character lookbehind for `\b`. -/
def lastOf (prev : Option Char) (consumed : List Char) : Option Char :=
  match consumed.getLast? with
  | some c => some c
  | none => prev

/-- Length of the maximal prefix of characters satisfying `p`. -/
def runLen (p : Char → Bool) : List Char → Nat
  | [] => 0
  | c :: cs => if p c then runLen p cs + 1 else 0

/-- Word boundary test between the previous character and the next one. -/
def isBoundary (prev : Option Char) (rest : List Char) : Bool :=
  let a := match prev with | some c => isWordC c | none => false
  let b := match rest with | c :: _ => isWordC c | [] => false
  a != b

/-- Case-insensitive literal matching (the stored literal is lowercase). -/
def matchLit (s : List Char) (prev : Option Char) (rest : List Char)
    (cap : Option (List Char))
    (k : Option Char → List Char → Option (List Char) → Option (List Char)) :
    Option (List Char) :=
  match s, rest with
  | [], _ => k prev rest cap
  | _ :: _, [] => none
  | c :: cs, d :: ds =>
    if c.toLower = d.toLower then matchLit cs (some d) ds cap k else none

/-- Greedy counted repetition of a character class: try consuming `n`
characters first, then backtrack down to `lo`. -/
def tryCounts (lo : Nat) (prev : Option Char) (rest : List Char)
    (cap : Option (List Char))
    (k : Option Char → List Char → Option (List Char) → Option (List Char)) :
    Nat → Option (List Char)
  | 0 => if lo = 0 then k prev rest cap else none
  | n + 1 =>
    if n + 1 < lo then none
    else
      match k (lastOf prev (rest.take (n + 1))) (rest.drop (n + 1)) cap with
      | some r => some r
      | none => tryCounts lo prev rest cap k n

/-- Backtracking matcher in continuation-passing style.  `prev` is the
character just before the current position (for `\b` and `^`), `cap` the
capture recorded so far. -/
def reMatch : RE → Option Char → List Char → Option (List Char) →
    (Option Char → List Char → Option (List Char) → Option (List Char)) →
    Option (List Char)
  | .eps, prev, rest, cap, k => k prev rest cap
  | .cls p, _, rest, cap, k =>
    match rest with
    | [] => none
    | c :: cs => if p c then k (some c) cs cap else none
  | .litCI s, prev, rest, cap, k => matchLit s prev rest cap k
  | .seq a b, prev, rest, cap, k =>
    reMatch a prev rest cap (fun p2 r2 c2 => reMatch b p2 r2 c2 k)
  | .alt a b, prev, rest, cap, k =>
    match reMatch a prev rest cap k with
    | some r => some r
    | none => reMatch b prev rest cap k
  | .opt a, prev, rest, cap, k =>
    match reMatch a prev rest cap k with
    | some r => some r
    | none => k prev rest cap
  | .reps p lo hi, prev, rest, cap, k =>
    let m := runLen p rest
    tryCounts lo prev rest cap k (match hi with | some h => min h m | none => m)
  | .bos, prev, rest, cap, k => if prev.isNone then k prev rest cap else none
  | .eos, prev, rest, cap, k =>
    if rest.isEmpty || rest == ['\n'] then k prev rest cap else none
  | .bnd, prev, rest, cap, k => if isBoundary prev rest then k prev rest cap else none
  | .grp a, prev, rest, cap, k =>
    reMatch a prev rest cap (fun p2 r2 _ =>
      k p2 r2 (some (rest.take (rest.length - r2.length))))

/-- Try the whole pattern at each successive start position (leftmost match
wins, as in `re.search`); the result is the text of the capturing group. -/
def searchFrom (r : RE) (prev : Option Char) (rest : List Char) :
    Option (List Char) :=
  match reMatch r prev rest none (fun _ _ cap => some (cap.getD [])) with
  | some c => some c
  | none =>
    match rest with
    | [] => none
    | c :: cs => searchFrom r (some c) cs

/-- Model of `re.search(pattern, text, re.IGNORECASE)`, returning
`match.group(1)`. -/
def reSearch (r : RE) (s : String) : Option String :=
  (searchFrom r none s.toList).map String.mk

/-- Right-nested sequencing of a pattern list. -/
def reSeq : List RE → RE
  | [] => .eps
  | [r] => r
  | r :: rs => .seq r (reSeq rs)

/-- Right-nested alternation, tried in list order. -/
def reAlts : List RE → RE
  | [] => .eps
  | [r] => r
  | r :: rs => .alt r (reAlts rs)

/-- Case-insensitive literal from a string. -/
def litS (s : String) : RE := .litCI s.toList

/-! ## The source regex patterns

`ai.py` lines 15-44 and `langgraph_workflow.py` lines 129-193.  All searches
are performed with `re.IGNORECASE`. -/

/-- Apostrophe character (kept out of literals for readability). -/
def apos : Char := Char.ofNat 39

/-- The alternative `i'?m` (greedy `?`: the apostrophe form is tried
first). -/
def imLit : RE := .alt (.litCI ['i', apos, 'm']) (.litCI ['i', 'm'])

/-- One name word `[A-Z][a-z]+` (at least two letters; under `IGNORECASE`
both classes match any ASCII letter). -/
def nameWordRE : RE := .seq (.cls isLetterC) (.reps isLetterC 1 none)

/-- The capture `([A-Z][a-z]+(?:\s+[A-Z][a-z]+)?)`. -/
def nameCapRE : RE :=
  .grp (.seq nameWordRE (.opt (.seq (.reps isSpaceC 1 none) nameWordRE)))

/-- Name pattern (a):
`(?:i'?m|i am|my name is|name is|called|this is)\s+([A-Z][a-z]+(?:\s+[A-Z][a-z]+)?)`. -/
def namePat1 : RE :=
  reSeq [reAlts [imLit, litS "i am", litS "my name is", litS "name is",
                 litS "called", litS "this is"],
         .reps isSpaceC 1 none, nameCapRE]

/-- Name pattern (b): `^([A-Z][a-z]+(?:\s+[A-Z][a-z]+)?)$`. -/
def namePat2 : RE := reSeq [.bos, nameCapRE, .eos]

/-- One attempt of the `extract_name` pattern loop: on a match, the group is
stripped and accepted only when it has at most 3 words. -/
def namePatTry (p : RE) (text : String) : Option String :=
  match reSearch p text with
  | some g =>
    let pn := pyStrip g
    if (pySplit pn).length ≤ 3 then some pn else none
  | none => none

/-- `extract_name` from `ai.py` lines 15-29: the two patterns in order, then
the fallback accepting the whole text when it is at most 3 words and
`text.replace(" ", "").isalpha()` holds. -/
def extract_name (text : String) : Option String :=
  match namePatTry namePat1 text with
  | some n => some n
  | none =>
    match namePatTry namePat2 text with
    | some n => some n
    | none =>
      if (pySplit text).length ≤ 3 && pyIsAlphaStr (removeSpaces text) then
        some (pyStrip text)
      else none

/-- The capture `(\d{1,3})`. -/
def digitCapRE : RE := .grp (.reps isDigitC 1 (some 3))

/-- Age pattern (a): `(?:i am|age is|i'?m|years old|year old)\s+(\d{1,3})`. -/
def agePat1 : RE :=
  reSeq [reAlts [litS "i am", litS "age is", imLit, litS "years old",
                 litS "year old"],
         .reps isSpaceC 1 none, digitCapRE]

/-- The optional suffix `(?:years?|yrs?|old)` of age pattern (b). -/
def ageSufRE : RE :=
  reAlts [.alt (litS "years") (litS "year"), .alt (litS "yrs") (litS "yr"),
          litS "old"]

/-- Age pattern (b): `\b(\d{1,3})\s*(?:years?|yrs?|old)?\b`. -/
def agePat2 : RE :=
  reSeq [.bnd, digitCapRE, .reps isSpaceC 0 none, .opt ageSufRE, .bnd]

/-- Age pattern (c): `^(\d{1,3})$`. -/
def agePat3 : RE := reSeq [.bos, digitCapRE, .eos]

/-- One attempt of the `extract_age` pattern loop: a match whose number is
outside `[1, 120]` counts as no match, so the next pattern is tried. -/
def agePatTry (p : RE) (text : String) : Option Nat :=
  match reSearch p text with
  | some g =>
    let n := digitsToNat g.toList
    if 1 ≤ n ∧ n ≤ 120 then some n else none
  | none => none

/-- `extract_age` from `ai.py` lines 31-44: the three patterns in order. -/
def extract_age (text : String) : Option Nat :=
  match agePatTry agePat1 text with
  | some n => some n
  | none =>
    match agePatTry agePat2 text with
    | some n => some n
    | none => agePatTry agePat3 text

/-! ## Location extraction (graph variant, `langgraph_workflow.py` 169-186) -/

/-- Any character but newline (`.` in the patterns). -/
def dotCls (c : Char) : Bool := c != '\n'

/-- The leading words removed by the location `re.sub`, in written order. -/
def locLeadWords : List String :=
  ["i live in", "location is", "address is", "i am at", "i am in", "at",
   "in", "near", "area is", "located at"]

/-- Location pattern (a): `(?:i live in|...|located at)\s+(.+)`. -/
def locPat1 : RE :=
  reSeq [reAlts (locLeadWords.map litS), .reps isSpaceC 1 none,
         .grp (.reps dotCls 1 none)]

/-- Location pattern (b): `^(.+)$`. -/
def locPat2 : RE := reSeq [.bos, .grp (.reps dotCls 1 none), .eos]

/-- Drop a case-insensitive literal from the front of a character list. -/
def dropCI : List Char → List Char → Option (List Char)
  | [], rest => some rest
  | _ :: _, [] => none
  | c :: cs, d :: ds => if c.toLower = d.toLower then dropCI cs ds else none

/-- Worker for `dropLocLead`: first alternative that matches at the start
and is followed by at least one whitespace wins; the whitespace run is
removed greedily. -/
def dropLocLeadGo : List String → List Char → Option (List Char)
  | [], _ => none
  | w :: ws, l =>
    match dropCI w.toList l with
    | some (c :: rest) =>
      if isSpaceC c then some (rest.dropWhile isSpaceC) else dropLocLeadGo ws l
    | some [] => dropLocLeadGo ws l
    | none => dropLocLeadGo ws l

/-- Model of `re.sub(r"^(i live in|...|located at)\s+", "", s, re.IGNORECASE)`. -/
def dropLocLead (s : String) : String :=
  match dropLocLeadGo locLeadWords s.toList with
  | some rest => String.mk rest
  | none => s

/-- One attempt of the location pattern loop: strip the group, remove a
leading location word, accept when longer than 3 characters. -/
def locPatTry (p : RE) (text : String) : Option String :=
  match reSearch p text with
  | some g =>
    let pl := dropLocLead (pyStrip g)
    if 3 < pl.length then some pl else none
  | none => none

/-- The graph variant's location extraction: the two patterns in order. -/
def extract_location_graph (text : String) : Option String :=
  match locPatTry locPat1 text with
  | some l => some l
  | none => locPatTry locPat2 text

/-! ## Data model of the manual state machine (`ai.py`) -/

/-- Conversation states of the session state machine (`session["step"]`). -/
inductive Step where
  | start
  | asking_name
  | asking_age
  | asking_location
  | asking_food_requirement
  | completed
deriving DecidableEq

/-- Position of a state in the monotone conversation order. -/
def rank : Step → Nat
  | .start => 0
  | .asking_name => 1
  | .asking_age => 2
  | .asking_location => 3
  | .asking_food_requirement => 4
  | .completed => 5

/-- A session record as stored in the in-memory `sessions` dictionary
(`ai.py` lines 112-119); `age_attempts` is the `_age_attempts` counter,
absent-until-first-failure in the source and hence 0-initialised here. -/
structure Session where
  step : Step
  person_name : Option String
  age : Option Nat
  location : Option String
  food_requirement : Option String
  assistance_type : String
  age_attempts : Nat
deriving DecidableEq

/-- The fresh session created for an unknown session id. -/
def initSession : Session :=
  { step := .start, person_name := none, age := none, location := none,
    food_requirement := none, assistance_type := "immediate", age_attempts := 0 }

/-- Outcomes of the external collaborators, supplied as an oracle:
whether the Supabase client is configured, whether its insert succeeds with
data, whether it raises, whether the webhook call raises, and whether an
unexpected internal fault occurs in the request body. -/
structure Env where
  supabaseConfigured : Bool
  insertOk : Bool
  insertRaises : Bool
  notifyRaises : Bool
  internalFault : Bool
deriving DecidableEq

/-- What the Fulfillment Dispatcher did during one step: whether
`store_in_supabase` was invoked, whether it reported success, and whether
`trigger_fulfillment_notification` was invoked. -/
structure DispatchLog where
  storeCalled : Bool
  stored : Bool
  notifyCalled : Bool
deriving DecidableEq

/-- Log of a step that never reached the dispatcher. -/
def noDispatch : DispatchLog :=
  { storeCalled := false, stored := false, notifyCalled := false }

/-- Chat response.  Modelled from the spec: `schemas.py` is not under
`src/`; section 6 of the spec gives the response shape
`{reply: string, session_id: string}`, with the session id "preserved when
available", so it is optional here (the `main.py` fallback constructs a
reply-only response). -/
structure ChatResponse where
  reply : String
  session_id : Option String
deriving DecidableEq

/-! The reply strings of `ai.py`. -/

def greetingReply : String :=
  "Hello! I'm your AI food assistance helper. I'm here to help you get free food within 10 minutes. How can I assist you today?"

def startIdleReply : String :=
  "I'm here to help with food assistance. Please let me know if you need food."

def askNameReply : String :=
  "Hello! I'm here to help you get food assistance. To proceed, I need a few details. Could you please tell me your name?"

def askAgeReply (name : String) : String :=
  "Thank you, " ++ name ++ "! Could you please tell me your age?"

def askLocReply : String :=
  "Thank you! Could you please tell me your location or area where you need the food delivered?"

def askAgeRetryReply : String :=
  "I need to know your age. Could you please tell me how old you are? (e.g., 25)"

def askFoodReply : String :=
  "Great! Could you please tell me what kind of food you need or any specific requirements?"

def missingReply : String :=
  "I'm sorry, some information is missing. Please start a new conversation."

def confirmBase (name : String) : String :=
  "Thank you " ++ name ++ "! Your food assistance request has been confirmed. We're coordinating with our partners to ensure you receive food within 10 minutes. You will receive a confirmation shortly."

def storedSuffix : String := " ✅ Your request has been saved in our system."

def failSuffix : String :=
  " ⚠️ Note: There was an issue saving your request. Please contact support."

def completedReply : String :=
  "Your request has already been processed. If you need another food assistance request, please start a new conversation."

def errorReply : String :=
  "I'm sorry, I encountered an error. Please try again or contact support."

/-! ## The per-state handlers of `chat_with_ai` (`ai.py` lines 145-321) -/

/-- Model of `store_in_supabase` (`ai.py` lines 46-92): `False` when the
client is unconfigured, when a required field is Python-falsy, when the
insert raises (caught), or when it returns no data. -/
def store_in_supabase (env : Env) (s : Session) : Bool :=
  if !env.supabaseConfigured then false
  else if !truthyS s.person_name || !truthyAge s.age || !truthyS s.location then false
  else if env.insertRaises then false
  else env.insertOk

/-- The `start` branch (lines 145-160): any non-empty message advances to
`asking_name`; an empty one re-prompts and stays. -/
def stepStart (s : Session) (mo : String) : Session × String × DispatchLog :=
  if mo ≠ "" then
    ({ s with step := .asking_name }, askNameReply, noDispatch)
  else (s, startIdleReply, noDispatch)

/-- The name recorded by the `asking_name` branch: the extracted name when
truthy, else the raw stripped text, else the placeholder `"User"`. -/
def nameOf (mo : String) : String :=
  if mo ≠ "" then
    match extract_name mo with
    | some n => if n = "" then mo else n
    | none => mo
  else "User"

/-- The `asking_name` branch (lines 162-182): record the name and always
advance. -/
def stepName (s : Session) (mo : String) : Session × String × DispatchLog :=
  ({ s with person_name := some (nameOf mo), step := .asking_age },
   askAgeReply (nameOf mo), noDispatch)

/-- The failure tail of the `asking_age` branch (lines 208-230): increment
the attempt counter; at 2 or more force-advance with the first number when
in range, else the default 25; otherwise re-prompt. -/
def stepAgeFail (s : Session) (nums : Option Nat) : Session × String × DispatchLog :=
  let att := s.age_attempts + 1
  if 2 ≤ att then
    let a := match nums with
      | some n => if 1 ≤ n ∧ n ≤ 120 then n else 25
      | none => 25
    ({ s with age := some a, age_attempts := att, step := .asking_location },
     askLocReply, noDispatch)
  else ({ s with age_attempts := att }, askAgeRetryReply, noDispatch)

/-- The `asking_age` branch (lines 184-230): `extract_age`, then any bare
in-range number, then the bounded-retry fallback. -/
def stepAge (s : Session) (msg : String) : Session × String × DispatchLog :=
  match extract_age msg with
  | some a =>
    ({ s with age := some a, step := .asking_location }, askLocReply, noDispatch)
  | none =>
    match firstNumber msg with
    | some n =>
      if 1 ≤ n ∧ n ≤ 120 then
        ({ s with age := some n, step := .asking_location }, askLocReply, noDispatch)
      else stepAgeFail s (some n)
    | none => stepAgeFail s none

/-- The location recorded by the `asking_location` branch: the raw text, or
the default `"Not specified"` when empty. -/
def locOf (mo : String) : String :=
  if mo ≠ "" then mo else "Not specified"

/-- The `asking_location` branch (lines 232-250): record the location and
always advance. -/
def stepLoc (s : Session) (mo : String) : Session × String × DispatchLog :=
  ({ s with location := some (locOf mo), step := .asking_food_requirement },
   askFoodReply, noDispatch)

/-- The food requirement recorded by the `asking_food_requirement` branch:
the raw text, or the default when empty. -/
def foodOf (mo : String) : String :=
  if mo = "" then "General food assistance" else mo

/-- The `asking_food_requirement` branch (lines 252-305): record the food
requirement, move to `completed`, validate, then store and - only on
successful storage - notify; the webhook error is caught (lines 290-295). -/
def stepFood (env : Env) (s : Session) (mo : String) : Session × String × DispatchLog :=
  let s1 := { s with food_requirement := some (foodOf mo), step := .completed }
  if !truthyS s1.person_name || s1.age = none || !truthyS s1.location then
    (s1, missingReply, noDispatch)
  else
    let stored := store_in_supabase env s1
    (s1,
     confirmBase (s1.person_name.getD "") ++
       (if stored then storedSuffix else failSuffix),
     { storeCalled := true, stored := stored, notifyCalled := stored })

/-- One message processed against an existing session: the dispatch on
`session["step"]` (lines 144-321).  The raw message is stripped once
(`user_msg_original`) and additionally lowercased for the age branch
(`user_msg`). -/
def stepSession (env : Env) (s : Session) (raw : String) : Session × String × DispatchLog :=
  let mo := pyStrip raw
  match s.step with
  | .start => stepStart s mo
  | .asking_name => stepName s mo
  | .asking_age => stepAge s (pyLower mo)
  | .asking_location => stepLoc s mo
  | .asking_food_requirement => stepFood env s mo
  | .completed => (s, completedReply, noDispatch)

/-- Session after one step. -/
def stepS (env : Env) (s : Session) (m : String) : Session :=
  (stepSession env s m).1

/-- Reply of one step. -/
def stepReply (env : Env) (s : Session) (m : String) : String :=
  (stepSession env s m).2.1

/-- Dispatch log of one step. -/
def stepLog (env : Env) (s : Session) (m : String) : DispatchLog :=
  (stepSession env s m).2.2

/-- Session after a whole message sequence. -/
def runList (env : Env) (s : Session) : List String → Session
  | [] => s
  | m :: ms => runList env (stepS env s m) ms

/-- Number of messages of a sequence on which the Fulfillment Dispatcher
(storage insert plus notification block) is invoked. -/
def dispatchCount (env : Env) (s : Session) : List String → Nat
  | [] => 0
  | m :: ms =>
    (if (stepLog env s m).storeCalled then 1 else 0) +
      dispatchCount env (stepS env s m) ms

/-- All four collected fields are non-null (indeed Python-truthy). -/
def allFourSet (s : Session) : Prop :=
  truthyS s.person_name = true ∧ s.age.isSome = true ∧
    truthyS s.location = true ∧ truthyS s.food_requirement = true

/-! ## The request boundary (`ai.py` 94-332, `main.py` 63-73) -/

/-- Session id resolution (`ai.py` lines 103-105): a missing or empty
requested id is replaced by a freshly generated one. -/
def resolveSid (reqSid : Option String) (freshId : String) : String :=
  match reqSid with
  | none => freshId
  | some s => if s = "" then freshId else s

/-- The request body inside the `try` of `chat_with_ai` (lines 107-321):
session creation, the greeting for an empty first message, then the state
machine.  An unexpected internal fault (the `Env` oracle) raises. -/
def chat_body (env : Env) (stored : Option Session) (sid : String)
    (message : String) :
    Except String (ChatResponse × Option Session × DispatchLog) :=
  if env.internalFault then .error "internal fault"
  else
    match stored with
    | none =>
      if pyStrip message = "" then
        .ok ({ reply := greetingReply, session_id := some sid },
             some initSession, noDispatch)
      else
        let r := stepSession env initSession message
        .ok ({ reply := r.2.1, session_id := some sid }, some r.1, r.2.2)
    | some s =>
      let r := stepSession env s message
      .ok ({ reply := r.2.1, session_id := some sid }, some r.1, r.2.2)

/-- `chat_with_ai`: the body wrapped in the handler's own `except` (lines
323-332), which converts any fault into the apology reply while keeping the
resolved session id. -/
def chat_with_ai (env : Env) (stored : Option Session) (reqSid : Option String)
    (freshId : String) (message : String) :
    ChatResponse × Option Session × DispatchLog :=
  let sid := resolveSid reqSid freshId
  match chat_body env stored sid message with
  | .ok r => r
  | .error _ =>
    ({ reply := errorReply, session_id := some sid }, stored, noDispatch)

/-- The `/chat` wrapper of `main.py` (lines 63-73).  `chat_with_ai` is a
total function here, so its outer `except` never fires; it is retained to
model that the endpoint always answers with a response, never an error
status. -/
def main_chat (env : Env) (stored : Option Session) (reqSid : Option String)
    (freshId : String) (message : String) : ChatResponse :=
  (chat_with_ai env stored reqSid freshId message).1

/-! ## The graph variant (`langgraph_workflow.py`) -/

/-- The conversation state of the graph workflow (`ConversationState`),
restricted to the fields `collect_user_info` reads and writes. -/
structure GState where
  person_name : Option String
  age : Option Nat
  location : Option String
  food_requirement : Option String
  fulfillment_triggered : Bool
deriving DecidableEq

/-- Fresh graph state. -/
def initGState : GState :=
  { person_name := none, age := none, location := none,
    food_requirement := none, fulfillment_triggered := false }

/-! The prompt strings of `collect_user_info` (lines 196-205) and its
confirmation (line 119). -/

def graphNamePrompt : String :=
  "Hello! I'm here to help you get food assistance. To proceed, I need a few details. Could you please tell me your name?"

def graphAgePrompt (name : String) : String :=
  "Thank you, " ++ name ++ "! Could you please tell me your age?"

def graphLocPrompt : String :=
  "Thank you! Could you please tell me your location or area where you need the food delivered?"

def graphFoodPrompt : String :=
  "Great! Could you please tell me what kind of food you need or any specific requirements?"

def graphAllInfoReply : String := "Thank you for providing all the information!"

def graphConfirmReply : String :=
  "Thank you! Your food assistance request has been confirmed. We're coordinating with our partners to ensure you receive food within 10 minutes. You will receive a confirmation shortly."

/-- Keyword sets of `router_node` (lines 52-54). -/
def urgentKeywords : List String :=
  ["hungry", "starving", "need food now", "urgent", "immediate", "emergency", "asap"]

def scheduledKeywords : List String :=
  ["later", "tomorrow", "next week", "schedule", "plan"]

def ngoKeywords : List String :=
  ["ngo", "referral", "support", "help", "assistance", "organization"]

/-- Exact-case literal prefix test on character lists. -/
def litAt : List Char → List Char → Bool
  | [], _ => true
  | _ :: _, [] => false
  | c :: cs, d :: ds => c = d && litAt cs ds

/-- Python `needle in hay` on strings. -/
def containsSub (hay needle : List Char) : Bool :=
  if litAt needle hay then true
  else
    match hay with
    | [] => false
    | _ :: t => containsSub t needle

/-- Intent classification of `router_node` (lines 39-67): keyword sets in
order, defaulting to `immediate_food`. -/
def routerIntent (message : String) : String :=
  let um := (pyLower message).toList
  if urgentKeywords.any (fun k => containsSub um k.toList) then "immediate_food"
  else if scheduledKeywords.any (fun k => containsSub um k.toList) then "scheduled_food"
  else if ngoKeywords.any (fun k => containsSub um k.toList) then "ngo_referral"
  else "immediate_food"

/-- Assistance type derived from the intent (lines 69-75). -/
def routerAssistanceType (intent : String) : String :=
  if intent = "immediate_food" then "immediate"
  else if intent = "scheduled_food" then "scheduled"
  else "ngo_referral"

/-- The extraction stage of `collect_user_info` (lines 123-193): each still
missing field is extracted from the stripped last human message. -/
def graphExtract (st : GState) (content : String) : GState :=
  let t := pyStrip content
  let st1 :=
    if !truthyS st.person_name then
      match extract_name t with
      | some n => { st with person_name := some n }
      | none => st
    else st
  let st2 :=
    if st1.age = none then
      match extract_age t with
      | some a => { st1 with age := some a }
      | none => st1
    else st1
  let st3 :=
    if !truthyS st2.location then
      match extract_location_graph t with
      | some l => { st2 with location := some l }
      | none => st2
    else st2
  if !truthyS st3.food_requirement && truthyS st3.person_name &&
      st3.age.isSome && truthyS st3.location && decide (10 < t.length) then
    { st3 with food_requirement := some t }
  else st3

/-- Model of the graph variant's `trigger_fulfillment` (lines 211-268):
the insert error is caught and the flow continues, and the notification is
attempted afterwards in every case (its error is caught too). -/
def trigger_fulfillment_graph (env : Env) : DispatchLog :=
  { storeCalled := env.supabaseConfigured,
    stored := env.supabaseConfigured && !env.insertRaises,
    notifyCalled := true }

/-- `collect_user_info` (lines 95-208) for one node execution: returns the
updated state, the appended AI reply when any, and whether fulfillment was
triggered during this execution. -/
def collect_user_info (st : GState) (lastHuman : Option String) :
    GState × Option String × Bool :=
  if truthyS st.person_name && st.age.isSome && truthyS st.location &&
      truthyS st.food_requirement then
    if !st.fulfillment_triggered then
      ({ st with fulfillment_triggered := true }, some graphConfirmReply, true)
    else (st, none, false)
  else
    let st1 := match lastHuman with
      | some c => graphExtract st c
      | none => st
    let reply :=
      if !truthyS st1.person_name then graphNamePrompt
      else if st1.age = none then graphAgePrompt (st1.person_name.getD "")
      else if !truthyS st1.location then graphLocPrompt
      else if !truthyS st1.food_requirement then graphFoodPrompt
      else graphAllInfoReply
    (st1, some reply, false)

/-- First reply of the graph pipeline to the first user message: `start` is
the identity, `router` only fixes the assistance type, and every assistance
node runs `collect_user_info` on the fresh state. -/
def graphFirstReply (message : String) : String :=
  ((collect_user_info initGState (some message)).2.1).getD ""

/-- First reply of the manual pipeline to the first user message of a new
session. -/
def manualFirstReply (env : Env) (message : String) : String :=
  (chat_with_ai env none none "fresh-session-id" message).1.reply

/-! ## Auxiliary definitions for the analysis -/

/-- The bare-number fallback of the `asking_age` branch: the first number of
the message when it lies in `[1, 120]`. -/
def bareNumberInRange (msg : String) : Option Nat :=
  match firstNumber msg with
  | some n => if 1 ≤ n ∧ n ≤ 120 then some n else none
  | none => none

/-- Field invariant of reachable sessions: every state at or past
`asking_age` has a truthy name, every state at or past `asking_location`
has an age, and every state at or past `asking_food_requirement` has a
truthy location. -/
def invS (s : Session) : Prop :=
  (2 ≤ rank s.step → truthyS s.person_name = true)
  ∧ (3 ≤ rank s.step → s.age.isSome = true)
  ∧ (4 ≤ rank s.step → truthyS s.location = true)

/-- An environment in which every external collaborator succeeds and no
internal fault occurs. -/
def env0 : Env :=
  { supabaseConfigured := true, insertOk := true, insertRaises := false,
    notifyRaises := false, internalFault := false }

/-- An environment in which the storage insert raises. -/
def envRaise : Env := { env0 with insertRaises := true }

/-- An environment in which an unexpected internal fault occurs while the
request body runs. -/
def envFault : Env := { env0 with internalFault := true }

/-- A session waiting for the age, with no failed attempt yet. -/
def sAge0 : Session :=
  { initSession with step := Step.asking_age, person_name := some "John" }

/-- The session `sAge0` after one failed age extraction. -/
def sAge1 : Session := stepS env0 sAge0 "not a number"

/-- A completed session. -/
def sDone : Session := { initSession with step := Step.completed }

/-- A session waiting for the food requirement with all fields collected. -/
def sFoodReady : Session :=
  { initSession with
    step := Step.asking_food_requirement
    person_name := some "John"
    age := some 30
    location := some "Lagos" }

/-! ## Helper lemmas -/

lemma truthyS_some {x : String} (h : x ≠ "") : truthyS (some x) = true := by
  simp [truthyS, h]

lemma nameOf_ne (mo : String) : nameOf mo ≠ "" := by
  unfold nameOf
  split_ifs with h
  · rcases he : extract_name mo with _ | n
    · exact h
    · dsimp only
      split_ifs with h2
      · exact h
      · exact h2
  · simp

lemma locOf_ne (mo : String) : locOf mo ≠ "" := by
  unfold locOf
  split_ifs with h
  · exact h
  · simp

lemma foodOf_ne (mo : String) : foodOf mo ≠ "" := by
  unfold foodOf
  split_ifs with h
  · simp
  · exact h

lemma agePatTry_range {p : RE} {t : String} {n : Nat}
    (h : agePatTry p t = some n) : 1 ≤ n ∧ n ≤ 120 := by
  unfold agePatTry at h
  rcases hg : reSearch p t with _ | g <;> rw [hg] at h
  · exact absurd h (by simp)
  · dsimp only at h
    split_ifs at h with hr
    · cases h; exact hr

lemma extract_age_range {t : String} {n : Nat} (h : extract_age t = some n) :
    1 ≤ n ∧ n ≤ 120 := by
  unfold extract_age at h
  rcases h1 : agePatTry agePat1 t with _ | m <;> rw [h1] at h
  · rcases h2 : agePatTry agePat2 t with _ | m <;> rw [h2] at h
    · exact agePatTry_range h
    · cases h
      exact agePatTry_range h2
  · cases h
    exact agePatTry_range h1

lemma stepFood_fst (env : Env) (s : Session) (mo : String) :
    (stepFood env s mo).1
      = { s with food_requirement := some (foodOf mo), step := Step.completed } := by
  unfold stepFood
  dsimp only
  split <;> rfl

lemma store_in_supabase_food (env : Env) (s : Session) (mo : String) :
    store_in_supabase env
        { s with food_requirement := some (foodOf mo), step := Step.completed }
      = store_in_supabase env s := by
  unfold store_in_supabase
  rfl

lemma stepFood_cases (env : Env) (s : Session) (mo : String) :
    (stepFood env s mo
        = ({ s with food_requirement := some (foodOf mo), step := Step.completed },
           missingReply, noDispatch)
      ∧ (truthyS s.person_name = false ∨ s.age = none ∨ truthyS s.location = false))
    ∨ (stepFood env s mo
        = ({ s with food_requirement := some (foodOf mo), step := Step.completed },
           confirmBase (s.person_name.getD "")
             ++ (if store_in_supabase env s then storedSuffix else failSuffix),
           { storeCalled := true, stored := store_in_supabase env s,
             notifyCalled := store_in_supabase env s })
      ∧ truthyS s.person_name = true ∧ s.age ≠ none ∧ truthyS s.location = true) := by
  unfold stepFood
  dsimp only
  rw [store_in_supabase_food]
  cases hb : (!truthyS s.person_name || decide (s.age = none) || !truthyS s.location) with
  | true =>
    left
    rw [if_pos rfl]
    refine ⟨rfl, ?_⟩
    simp only [Bool.or_eq_true, Bool.not_eq_true', decide_eq_true_eq] at hb
    tauto
  | false =>
    right
    rw [if_neg (by simp)]
    refine ⟨rfl, ?_⟩
    simp only [Bool.or_eq_false_iff, Bool.not_eq_false', decide_eq_false_iff_not] at hb
    tauto

lemma stepAge_cases (s : Session) (msg : String) :
    (∃ a, extract_age msg = some a
       ∧ stepAge s msg
          = ({ s with age := some a, step := Step.asking_location },
             askLocReply, noDispatch))
    ∨ (∃ n, extract_age msg = none ∧ bareNumberInRange msg = some n
       ∧ stepAge s msg
          = ({ s with age := some n, step := Step.asking_location },
             askLocReply, noDispatch))
    ∨ (extract_age msg = none ∧ bareNumberInRange msg = none
       ∧ 2 ≤ s.age_attempts + 1
       ∧ stepAge s msg
          = ({ s with
               age := some 25
               age_attempts := s.age_attempts + 1
               step := Step.asking_location },
             askLocReply, noDispatch))
    ∨ (extract_age msg = none ∧ bareNumberInRange msg = none
       ∧ s.age_attempts = 0
       ∧ stepAge s msg
          = ({ s with age_attempts := s.age_attempts + 1 },
             askAgeRetryReply, noDispatch)) := by
  unfold stepAge stepAgeFail bareNumberInRange
  rcases he : extract_age msg with _ | a
  · rcases hn : firstNumber msg with _ | n
    · dsimp only
      split_ifs with h2
      · right; right; left
        exact ⟨rfl, rfl, h2, rfl⟩
      · right; right; right
        exact ⟨rfl, rfl, by omega, rfl⟩
    · dsimp only
      split_ifs with h1 h2
      · right; left
        exact ⟨n, rfl, rfl, rfl⟩
      · right; right; left
        exact ⟨rfl, rfl, h2, rfl⟩
      · right; right; right
        exact ⟨rfl, rfl, by omega, rfl⟩
  · left
    exact ⟨a, rfl, rfl⟩
lemma stepSession_start (env : Env) (s : Session) (m : String)
    (h : s.step = Step.start) : stepSession env s m = stepStart s (pyStrip m) := by
  unfold stepSession
  rw [h]

lemma stepSession_name (env : Env) (s : Session) (m : String)
    (h : s.step = Step.asking_name) : stepSession env s m = stepName s (pyStrip m) := by
  unfold stepSession
  rw [h]

lemma stepSession_age (env : Env) (s : Session) (m : String)
    (h : s.step = Step.asking_age) :
    stepSession env s m = stepAge s (pyLower (pyStrip m)) := by
  unfold stepSession
  rw [h]

lemma stepSession_loc (env : Env) (s : Session) (m : String)
    (h : s.step = Step.asking_location) :
    stepSession env s m = stepLoc s (pyStrip m) := by
  unfold stepSession
  rw [h]

lemma stepSession_food (env : Env) (s : Session) (m : String)
    (h : s.step = Step.asking_food_requirement) :
    stepSession env s m = stepFood env s (pyStrip m) := by
  unfold stepSession
  rw [h]

lemma stepSession_completed (env : Env) (s : Session) (m : String)
    (h : s.step = Step.completed) :
    stepSession env s m = (s, completedReply, noDispatch) := by
  unfold stepSession
  rw [h]

lemma stepLog_noDispatch (env : Env) (s : Session) (m : String)
    (h : s.step ≠ Step.asking_food_requirement) : stepLog env s m = noDispatch := by
  unfold stepLog
  cases hs : s.step
  case asking_food_requirement => exact absurd hs h
  case start =>
    rw [stepSession_start env s m hs]
    unfold stepStart
    split <;> rfl
  case asking_name =>
    rw [stepSession_name env s m hs]
    rfl
  case asking_age =>
    rw [stepSession_age env s m hs]
    rcases stepAge_cases s (pyLower (pyStrip m)) with
      ⟨a, _, hEq⟩ | ⟨n, _, _, hEq⟩ | ⟨_, _, _, hEq⟩ | ⟨_, _, _, hEq⟩ <;> rw [hEq]
  case asking_location =>
    rw [stepSession_loc env s m hs]
    rfl
  case completed =>
    rw [stepSession_completed env s m hs]

lemma storeCalled_shape (env : Env) (s : Session) (m : String)
    (h : (stepLog env s m).storeCalled = true) :
    s.step = Step.asking_food_requirement
    ∧ (stepS env s m).step = Step.completed
    ∧ allFourSet (stepS env s m) := by
  by_cases hs : s.step = Step.asking_food_requirement
  case neg =>
    rw [stepLog_noDispatch env s m hs] at h
    exact absurd h (by simp [noDispatch])
  case pos =>
    refine ⟨hs, ?_⟩
    have hfood := stepSession_food env s m hs
    rcases stepFood_cases env s (pyStrip m) with ⟨hEq, hmiss⟩ | ⟨hEq, h1, h2, h3⟩
    · exfalso
      unfold stepLog at h
      rw [hfood, hEq] at h
      simp [noDispatch] at h
    · unfold stepS
      rw [hfood, hEq]
      refine ⟨rfl, h1, ?_, h3, truthyS_some (foodOf_ne (pyStrip m))⟩
      simpa [Option.isSome_iff_ne_none] using h2

lemma dispatchCount_completed (env : Env) (msgs : List String) :
    ∀ s : Session, s.step = Step.completed → dispatchCount env s msgs = 0 := by
  induction msgs with
  | nil => intro s _; rfl
  | cons m ms ih =>
    intro s hs
    unfold dispatchCount
    rw [stepLog_noDispatch env s m (by rw [hs]; simp)]
    have hnext : stepS env s m = s := by
      unfold stepS
      rw [stepSession_completed env s m hs]
    rw [hnext, ih s hs]
    rfl

lemma dispatchCount_le_one (env : Env) (msgs : List String) :
    ∀ s : Session, dispatchCount env s msgs ≤ 1 := by
  induction msgs with
  | nil => intro s; simp [dispatchCount]
  | cons m ms ih =>
    intro s
    unfold dispatchCount
    by_cases hc : (stepLog env s m).storeCalled = true
    · have hdone := (storeCalled_shape env s m hc).2.1
      rw [dispatchCount_completed env ms (stepS env s m) hdone, hc]
      simp
    · rw [Bool.not_eq_true] at hc
      rw [hc]
      simpa using ih (stepS env s m)
set_option maxRecDepth 4096 in
lemma confirm_ne_missing (n x : String) : confirmBase n ++ x ≠ missingReply := by
  intro h
  have h2 := congrArg (fun s => s.data.head?) h
  simp only [confirmBase, missingReply, String.data_append] at h2
  simp at h2

lemma stepS_start_cases (env : Env) (s : Session) (m : String)
    (h : s.step = Step.start) :
    (pyStrip m ≠ "" ∧ stepS env s m = { s with step := Step.asking_name })
    ∨ (pyStrip m = "" ∧ stepS env s m = s) := by
  unfold stepS
  rw [stepSession_start env s m h]
  unfold stepStart
  split_ifs with hm
  · left; exact ⟨hm, rfl⟩
  · right; exact ⟨by simpa using hm, rfl⟩

lemma invS_init : invS initSession := by
  refine ⟨?_, ?_, ?_⟩ <;> intro hr <;> exact absurd hr (by decide)

lemma invS_step (env : Env) (s : Session) (m : String) (h : invS s) :
    invS (stepS env s m) := by
  obtain ⟨h1, h2, h3⟩ := h
  cases hs : s.step
  case start =>
    rcases stepS_start_cases env s m hs with ⟨_, hEq⟩ | ⟨_, hEq⟩ <;> rw [hEq]
    · exact ⟨fun hr => by simp [rank] at hr, fun hr => by simp [rank] at hr,
             fun hr => by simp [rank] at hr⟩
    · exact ⟨h1, h2, h3⟩
  case asking_name =>
    unfold stepS
    rw [stepSession_name env s m hs]
    unfold stepName
    exact ⟨fun _ => truthyS_some (nameOf_ne (pyStrip m)),
           fun hr => by simp [rank] at hr, fun hr => by simp [rank] at hr⟩
  case asking_age =>
    have hadv : ∀ a : Nat,
        invS { s with age := some a, step := Step.asking_location } := by
      intro a
      exact ⟨fun _ => h1 (by rw [hs]; decide), fun _ => rfl,
             fun hr => by simp [rank] at hr⟩
    rcases stepAge_cases s (pyLower (pyStrip m)) with
      ⟨a, _, hEq⟩ | ⟨n, _, _, hEq⟩ | ⟨_, _, _, hEq⟩ | ⟨_, _, _, hEq⟩ <;>
        unfold stepS <;> rw [stepSession_age env s m hs, hEq]
    · exact hadv a
    · exact hadv n
    · exact ⟨fun _ => h1 (by rw [hs]; decide), fun _ => rfl,
             fun hr => by simp [rank] at hr⟩
    · exact ⟨h1, h2, h3⟩
  case asking_location =>
    unfold stepS
    rw [stepSession_loc env s m hs]
    unfold stepLoc
    exact ⟨fun _ => h1 (by rw [hs]; decide), fun _ => h2 (by rw [hs]; decide),
           fun _ => truthyS_some (locOf_ne (pyStrip m))⟩
  case asking_food_requirement =>
    unfold stepS
    rw [stepSession_food env s m hs, stepFood_fst]
    exact ⟨fun _ => h1 (by rw [hs]; decide), fun _ => h2 (by rw [hs]; decide),
           fun _ => h3 (by rw [hs]; decide)⟩
  case completed =>
    unfold stepS
    rw [stepSession_completed env s m hs]
    exact ⟨h1, h2, h3⟩

lemma invS_run (env : Env) (msgs : List String) :
    ∀ s : Session, invS s → invS (runList env s msgs) := by
  induction msgs with
  | nil => intro s h; exact h
  | cons m ms ih => intro s h; exact ih _ (invS_step env s m h)

lemma assistance_step (env : Env) (s : Session) (m : String) :
    (stepS env s m).assistance_type = s.assistance_type := by
  cases hs : s.step
  case start =>
    rcases stepS_start_cases env s m hs with ⟨_, hEq⟩ | ⟨_, hEq⟩ <;> rw [hEq]
  case asking_name =>
    unfold stepS
    rw [stepSession_name env s m hs]
    rfl
  case asking_age =>
    rcases stepAge_cases s (pyLower (pyStrip m)) with
      ⟨a, _, hEq⟩ | ⟨n, _, _, hEq⟩ | ⟨_, _, _, hEq⟩ | ⟨_, _, _, hEq⟩ <;>
        unfold stepS <;> rw [stepSession_age env s m hs, hEq]
  case asking_location =>
    unfold stepS
    rw [stepSession_loc env s m hs]
    rfl
  case asking_food_requirement =>
    unfold stepS
    rw [stepSession_food env s m hs, stepFood_fst]
  case completed =>
    unfold stepS
    rw [stepSession_completed env s m hs]

lemma assistance_run (env : Env) (msgs : List String) :
    ∀ s : Session, (runList env s msgs).assistance_type = s.assistance_type := by
  induction msgs with
  | nil => intro s; rfl
  | cons m ms ih =>
    intro s
    have := ih (stepS env s m)
    rw [show runList env s (m :: ms) = runList env (stepS env s m) ms from rfl, this,
        assistance_step]
/-! ## The claims -/

/-- C2, counterexample: the claim states that `extract_name` returns null on
`"hello there friend"` (and on every text that is not 1-3 capitalized
words), but the final fallback of `extract_name` accepts any text of at most
three alphabetic words regardless of capitalization, so the call returns the
text itself. -/
theorem c2_counterexample :
    extract_name "hello there friend" = some "hello there friend"
    ∧ extract_name "hello there friend" ≠ none := by
  refine ⟨by decide, by decide⟩

/-- C2, amended: `extract_name "My name is Alice Smith"` is `"Alice Smith"`;
the pattern pass works as claimed except that `re.IGNORECASE` makes the
capitalization requirement vacuous, and the final fallback accepts any text
of at most 3 space-separated alphabetic words (so `"hello there friend"` is
returned verbatim rather than null); null is returned only when both the
patterns and this fallback reject the text. -/
theorem c2_amended :
    extract_name "My name is Alice Smith" = some "Alice Smith"
    ∧ extract_name "hello there friend" = some "hello there friend"
    ∧ ∀ t : String, (pySplit t).length ≤ 3 →
        pyIsAlphaStr (removeSpaces t) = true → extract_name t ≠ none := by
  refine ⟨by decide, by decide, ?_⟩
  intro t h1 h2
  unfold extract_name
  rcases namePatTry namePat1 t with _ | n
  · rcases namePatTry namePat2 t with _ | n
    · simp [h1, h2]
    · simp
  · simp

/-- C2, witness for the amended claim's fallback guarantee. -/
theorem c2_amended_witness : extract_name "ok then" ≠ none :=
  c2_amended.2.2 "ok then" (by decide) (by decide)

/-- C3: `extract_age` returns 45 on "I am 45 years old", null on
"I am 200 years old" and on "no idea"; every returned value lies in
`[1, 120]`, and an out-of-range match only disables its own pattern, the
later patterns are still tried (witnessed by `"42, i am 500"`, where the
first pattern matches 500 and the second still returns 42). -/
theorem c3_confirmed :
    extract_age "I am 45 years old" = some 45
    ∧ extract_age "I am 200 years old" = none
    ∧ extract_age "no idea" = none
    ∧ extract_age "42, i am 500" = some 42
    ∧ ∀ (t : String) (n : Nat), extract_age t = some n → 1 ≤ n ∧ n ≤ 120 :=
  ⟨by decide, by decide, by decide, by decide, fun _ _ h => extract_age_range h⟩

/-- C3, witness: the range guarantee applied at a concrete input. -/
theorem c3_witness : 1 ≤ 42 ∧ 42 ≤ 120 :=
  c3_confirmed.2.2.2.2 "42, i am 500" 42 (by decide)

/-- C7: once a session is completed, every message (of any content) gets the
identical "already processed" reply, leaves the session unchanged and never
reaches the Fulfillment Dispatcher: the handler is idempotent in the
completed state. -/
theorem c7_confirmed (env : Env) (s : Session) (m : String)
    (reqSid : Option String) (freshId : String)
    (h : s.step = Step.completed) (hf : env.internalFault = false) :
    stepSession env s m = (s, completedReply, noDispatch)
    ∧ (chat_with_ai env (some s) reqSid freshId m).1.reply = completedReply
    ∧ (chat_with_ai env (some s) reqSid freshId m).2.1 = some s
    ∧ (chat_with_ai env (some s) reqSid freshId m).2.2 = noDispatch := by
  have h1 := stepSession_completed env s m h
  refine ⟨h1, ?_, ?_, ?_⟩ <;> simp [chat_with_ai, chat_body, hf, h1]

/-- C7, witness: the idempotence at a concrete completed session. -/
theorem c7_witness :
    stepSession env0 sDone "anything" = (sDone, completedReply, noDispatch)
    ∧ (chat_with_ai env0 (some sDone) (some "sid") "fresh" "anything").1.reply
        = completedReply :=
  ⟨(c7_confirmed env0 sDone "anything" (some "sid") "fresh" (by decide) (by decide)).1,
   (c7_confirmed env0 sDone "anything" (some "sid") "fresh" (by decide) (by decide)).2.1⟩

/-- C9: an unexpected internal fault in the request body is caught by the
handler's own boundary and converted into the generic apology reply of a
normal response that still carries the resolved session id; `main_chat`
passes this response through, so no fault ever escapes as an error. -/
theorem c9_confirmed (env : Env) (stored : Option Session)
    (reqSid : Option String) (freshId : String) (message : String)
    (h : env.internalFault = true) :
    (chat_with_ai env stored reqSid freshId message).1.reply = errorReply
    ∧ (chat_with_ai env stored reqSid freshId message).1.session_id
        = some (resolveSid reqSid freshId)
    ∧ (chat_with_ai env stored reqSid freshId message).2.2 = noDispatch
    ∧ main_chat env stored reqSid freshId message
        = (chat_with_ai env stored reqSid freshId message).1 := by
  refine ⟨?_, ?_, ?_, rfl⟩ <;> simp [chat_with_ai, chat_body, h]

/-- C9, witness: the fault conversion at a concrete request. -/
theorem c9_witness :
    (chat_with_ai envFault (some sAge0) (some "abc") "fresh" "hello").1.reply
        = errorReply
    ∧ (chat_with_ai envFault (some sAge0) (some "abc") "fresh" "hello").1.session_id
        = some (resolveSid (some "abc") "fresh") :=
  ⟨(c9_confirmed envFault (some sAge0) (some "abc") "fresh" "hello" (by decide)).1,
   (c9_confirmed envFault (some sAge0) (some "abc") "fresh" "hello" (by decide)).2.1⟩

/-- C4, counterexample: with no prior failed attempt, the message "25kg"
makes `extract_age` fail, yet the handler does not increment the retry
counter and re-prompt as the claim states: the bare-number fallback accepts
25 immediately and force-advances to `asking_location` on the first
attempt. -/
theorem c4_counterexample :
    extract_age "25kg" = none
    ∧ sAge0.age_attempts = 0
    ∧ (stepS env0 sAge0 "25kg").step = Step.asking_location
    ∧ (stepS env0 sAge0 "25kg").age = some 25
    ∧ (stepS env0 sAge0 "25kg").age_attempts = 0 := by
  refine ⟨by decide, by decide, by decide, by decide, by decide⟩

/-- C4, amended: in `asking_age`, a successful extraction advances with the
extracted age; on extraction failure a bare in-range number advances
immediately with that number and without touching the retry counter; only
when neither succeeds is the counter incremented, after which a first
failure re-prompts in `asking_age` and a second failure force-advances with
the default age 25. -/
theorem c4_amended (env : Env) (s : Session) (m : String)
    (h : s.step = Step.asking_age) :
    (∀ a, extract_age (pyLower (pyStrip m)) = some a →
        (stepS env s m).age = some a
        ∧ (stepS env s m).step = Step.asking_location
        ∧ (stepS env s m).age_attempts = s.age_attempts)
    ∧ (∀ n, extract_age (pyLower (pyStrip m)) = none →
        bareNumberInRange (pyLower (pyStrip m)) = some n →
        (stepS env s m).age = some n
        ∧ (stepS env s m).step = Step.asking_location
        ∧ (stepS env s m).age_attempts = s.age_attempts)
    ∧ (extract_age (pyLower (pyStrip m)) = none →
        bareNumberInRange (pyLower (pyStrip m)) = none →
        (s.age_attempts = 0 →
            (stepS env s m).step = Step.asking_age
            ∧ (stepS env s m).age_attempts = 1
            ∧ stepReply env s m = askAgeRetryReply)
        ∧ (1 ≤ s.age_attempts →
            (stepS env s m).step = Step.asking_location
            ∧ (stepS env s m).age = some 25)) := by
  have hsess := stepSession_age env s m h
  rcases stepAge_cases s (pyLower (pyStrip m)) with
    ⟨a, he, hEq⟩ | ⟨n, he, hn, hEq⟩ | ⟨he, hn, hb, hEq⟩ | ⟨he, hn, hb, hEq⟩
  · refine ⟨?_, ?_, ?_⟩
    · intro a2 he2
      rw [he] at he2
      cases he2
      unfold stepS
      rw [hsess, hEq]
      exact ⟨rfl, rfl, rfl⟩
    · intro n he2 _
      rw [he] at he2
      cases he2
    · intro he2
      rw [he] at he2
      cases he2
  · refine ⟨?_, ?_, ?_⟩
    · intro a2 he2
      rw [he] at he2
      cases he2
    · intro n2 _ hn2
      rw [hn] at hn2
      cases hn2
      unfold stepS
      rw [hsess, hEq]
      exact ⟨rfl, rfl, rfl⟩
    · intro _ hn2
      rw [hn] at hn2
      cases hn2
  · refine ⟨?_, ?_, ?_⟩
    · intro a2 he2
      rw [he] at he2
      cases he2
    · intro n2 _ hn2
      rw [hn] at hn2
      cases hn2
    · intro _ _
      constructor
      · intro h0
        omega
      · intro _
        unfold stepS
        rw [hsess, hEq]
        exact ⟨rfl, rfl⟩
  · refine ⟨?_, ?_, ?_⟩
    · intro a2 he2
      rw [he] at he2
      cases he2
    · intro n2 _ hn2
      rw [hn] at hn2
      cases hn2
    · intro _ _
      constructor
      · intro h0
        refine ⟨?_, ?_, ?_⟩
        · unfold stepS
          rw [hsess, hEq, h]
        · unfold stepS
          rw [hsess, hEq, h0]
        · unfold stepReply
          rw [hsess, hEq]
      · intro h1
        omega

/-- C4, witness for the amended claim: the spec scenario of two consecutive
"not a number" messages: after the second failure the age defaults to 25
and the state force-advances to `asking_location`. -/
theorem c4_amended_witness :
    (stepS env0 sAge1 "not a number").step = Step.asking_location
    ∧ (stepS env0 sAge1 "not a number").age = some 25 :=
  ((c4_amended env0 sAge1 "not a number" (by decide)).2.2 (by decide)
    (by decide)).2 (by decide)

/-- C5, counterexample: a session sitting in `start` that receives an empty
message stays in `start`, a self-loop on a state other than `asking_age`,
contradicting the claim that the `asking_age` self-loop is the only one
(the terminal `completed` state also loops on itself). -/
theorem c5_counterexample :
    (stepS env0 initSession "").step = Step.start
    ∧ stepReply env0 initSession "" = startIdleReply
    ∧ (stepS env0 sDone "x").step = Step.completed
    ∧ Step.start ≠ Step.asking_age := by
  refine ⟨by decide, by decide, by decide, by decide⟩

/-- C5, amended: the visited states are non-decreasing in the conversation
order and every proper transition strictly increases the rank, so no state
is re-entered once left; the only self-loops are `start` on an empty
message, `asking_age` on a first failed attempt (the counter moves 0 to 1,
so this loop is taken at most once and a session receives at most 2
messages there), and the terminal `completed` state. -/
theorem c5_amended (env : Env) (s : Session) (m : String) :
    rank s.step ≤ rank (stepS env s m).step
    ∧ ((stepS env s m).step ≠ s.step → rank s.step < rank (stepS env s m).step)
    ∧ ((stepS env s m).step = s.step →
         (s.step = Step.start ∧ pyStrip m = "")
         ∨ (s.step = Step.asking_age ∧ s.age_attempts = 0
              ∧ (stepS env s m).age_attempts = 1)
         ∨ s.step = Step.completed)
    ∧ (s.step = Step.asking_age → 1 ≤ s.age_attempts →
         (stepS env s m).step = Step.asking_location) := by
  cases hs : s.step
  case start =>
    rcases stepS_start_cases env s m hs with ⟨hm, hEq⟩ | ⟨hm, hEq⟩ <;> rw [hEq]
    · refine ⟨?_, fun _ => ?_, fun hc => ?_, fun hc _ => ?_⟩
      · show rank Step.start ≤ rank Step.asking_name
        decide
      · show rank Step.start < rank Step.asking_name
        decide
      · exact absurd (show Step.asking_name = Step.start from hc) (by decide)
      · exact absurd hc (by decide)
    · refine ⟨?_, fun hne => ?_, fun _ => ?_, fun hc _ => ?_⟩
      · rw [hs]
      · exact absurd hs hne
      · exact Or.inl ⟨rfl, hm⟩
      · exact absurd hc (by decide)
  case asking_name =>
    have hEq : stepS env s m
        = { s with
            person_name := some (nameOf (pyStrip m))
            step := Step.asking_age } := by
      unfold stepS
      rw [stepSession_name env s m hs]
      rfl
    rw [hEq]
    refine ⟨?_, fun _ => ?_, fun hc => ?_, fun hc _ => ?_⟩
    · show rank Step.asking_name ≤ rank Step.asking_age
      decide
    · show rank Step.asking_name < rank Step.asking_age
      decide
    · exact absurd (show Step.asking_age = Step.asking_name from hc) (by decide)
    · exact absurd hc (by decide)
  case asking_age =>
    have hsess := stepSession_age env s m hs
    rcases stepAge_cases s (pyLower (pyStrip m)) with
      ⟨a, he, hEq⟩ | ⟨n, he, hn, hEq⟩ | ⟨he, hn, hb, hEq⟩ | ⟨he, hn, hb, hEq⟩
    · have hS : stepS env s m
          = { s with age := some a, step := Step.asking_location } := by
        unfold stepS
        rw [hsess, hEq]
      rw [hS]
      refine ⟨?_, fun _ => ?_, fun hc => ?_, fun _ _ => rfl⟩
      · show rank Step.asking_age ≤ rank Step.asking_location
        decide
      · show rank Step.asking_age < rank Step.asking_location
        decide
      · exact absurd (show Step.asking_location = Step.asking_age from hc) (by decide)
    · have hS : stepS env s m
          = { s with age := some n, step := Step.asking_location } := by
        unfold stepS
        rw [hsess, hEq]
      rw [hS]
      refine ⟨?_, fun _ => ?_, fun hc => ?_, fun _ _ => rfl⟩
      · show rank Step.asking_age ≤ rank Step.asking_location
        decide
      · show rank Step.asking_age < rank Step.asking_location
        decide
      · exact absurd (show Step.asking_location = Step.asking_age from hc) (by decide)
    · have hS : stepS env s m
          = { s with
              age := some 25
              age_attempts := s.age_attempts + 1
              step := Step.asking_location } := by
        unfold stepS
        rw [hsess, hEq]
      rw [hS]
      refine ⟨?_, fun _ => ?_, fun hc => ?_, fun _ _ => rfl⟩
      · show rank Step.asking_age ≤ rank Step.asking_location
        decide
      · show rank Step.asking_age < rank Step.asking_location
        decide
      · exact absurd (show Step.asking_location = Step.asking_age from hc) (by decide)
    · have hS : stepS env s m = { s with age_attempts := s.age_attempts + 1 } := by
        unfold stepS
        rw [hsess, hEq]
      rw [hS]
      refine ⟨?_, fun hne => ?_, fun _ => ?_, fun _ h1 => ?_⟩
      · rw [hs]
      · exact absurd
          (show ({ s with age_attempts := s.age_attempts + 1 } : Session).step
              = Step.asking_age from hs) hne
      · exact Or.inr (Or.inl ⟨rfl, hb, by rw [hb]⟩)
      · omega
  case asking_location =>
    have hEq : stepS env s m
        = { s with
            location := some (locOf (pyStrip m))
            step := Step.asking_food_requirement } := by
      unfold stepS
      rw [stepSession_loc env s m hs]
      rfl
    rw [hEq]
    refine ⟨?_, fun _ => ?_, fun hc => ?_, fun hc _ => ?_⟩
    · show rank Step.asking_location ≤ rank Step.asking_food_requirement
      decide
    · show rank Step.asking_location < rank Step.asking_food_requirement
      decide
    · exact absurd
        (show Step.asking_food_requirement = Step.asking_location from hc) (by decide)
    · exact absurd hc (by decide)
  case asking_food_requirement =>
    have hEq : stepS env s m
        = { s with
            food_requirement := some (foodOf (pyStrip m))
            step := Step.completed } := by
      unfold stepS
      rw [stepSession_food env s m hs, stepFood_fst]
    rw [hEq]
    refine ⟨?_, fun _ => ?_, fun hc => ?_, fun hc _ => ?_⟩
    · show rank Step.asking_food_requirement ≤ rank Step.completed
      decide
    · show rank Step.asking_food_requirement < rank Step.completed
      decide
    · exact absurd (show Step.completed = Step.asking_food_requirement from hc)
        (by decide)
    · exact absurd hc (by decide)
  case completed =>
    have hEq : stepS env s m = s := by
      unfold stepS
      rw [stepSession_completed env s m hs]
    rw [hEq]
    refine ⟨?_, fun hne => ?_, fun _ => ?_, fun hc _ => ?_⟩
    · rw [hs]
    · exact absurd hs hne
    · exact Or.inr (Or.inr rfl)
    · exact absurd hc (by decide)

/-- C5, witness for the amended claim: the bounded `asking_age` retry,
applied at a session that already has a failed attempt on record. -/
theorem c5_amended_witness :
    (stepS env0 sAge1 "still no").step = Step.asking_location :=
  (c5_amended env0 sAge1 "still no").2.2.2 (by decide) (by decide)
lemma store_false_of_raises (env : Env) (s : Session)
    (h : env.insertRaises = true) : store_in_supabase env s = false := by
  unfold store_in_supabase
  rw [h]
  split_ifs with h1 h2 h3
  · rfl
  · rfl
  · rfl
  · exact absurd rfl h3

/-- C6, counterexample: in the graph variant's `trigger_fulfillment`
(`langgraph_workflow.py` lines 229-268), a storage failure does not prevent
the notification: with a configured client whose insert raises, the
notification is still attempted afterwards, contrary to the claim that the
Notification Sink is invoked only when storage succeeded. -/
theorem c6_counterexample :
    (trigger_fulfillment_graph envRaise).stored = false
    ∧ (trigger_fulfillment_graph envRaise).storeCalled = true
    ∧ (trigger_fulfillment_graph envRaise).notifyCalled = true := by
  refine ⟨by decide, by decide, by decide⟩

/-- C6, amended: in the chat handler of `ai.py` the claimed behavior holds:
the notification is invoked exactly when storage reported success, a raising
insert is caught and folded into `stored = false`, and the handler still
replies normally with the confirmation text plus a success or
degraded-service suffix; the graph variant's `trigger_fulfillment`, however,
attempts the notification regardless of the storage outcome (its errors are
caught as well). -/
theorem c6_amended (env : Env) (s : Session) (m : String)
    (h : s.step = Step.asking_food_requirement) :
    (stepLog env s m).notifyCalled = (stepLog env s m).stored
    ∧ (env.insertRaises = true → (stepLog env s m).stored = false)
    ∧ ((stepLog env s m).storeCalled = true →
        stepReply env s m
          = confirmBase (s.person_name.getD "")
              ++ (if (stepLog env s m).stored then storedSuffix else failSuffix))
    ∧ (trigger_fulfillment_graph env).notifyCalled = true := by
  have hsess := stepSession_food env s m h
  rcases stepFood_cases env s (pyStrip m) with ⟨hEq, _⟩ | ⟨hEq, _⟩
  · have hlog : stepLog env s m = noDispatch := by
      unfold stepLog
      rw [hsess, hEq]
    refine ⟨by rw [hlog]; rfl, fun _ => by rw [hlog]; rfl, fun hc => ?_, rfl⟩
    rw [hlog] at hc
    exact absurd hc (by decide)
  · have hlog : stepLog env s m
        = { storeCalled := true, stored := store_in_supabase env s,
            notifyCalled := store_in_supabase env s } := by
      unfold stepLog
      rw [hsess, hEq]
    have hrep : stepReply env s m
        = confirmBase (s.person_name.getD "")
            ++ (if store_in_supabase env s then storedSuffix else failSuffix) := by
      unfold stepReply
      rw [hsess, hEq]
    refine ⟨by rw [hlog], fun hr => ?_, fun _ => ?_, rfl⟩
    · rw [hlog]
      exact store_false_of_raises env s hr
    · rw [hlog, hrep]

/-- C6, witness for the amended claim: a raising insert at a ready session
yields `stored = false` and hence no notification. -/
theorem c6_amended_witness :
    (stepLog envRaise sFoodReady "rice").stored = false
    ∧ (stepLog envRaise sFoodReady "rice").notifyCalled
        = (stepLog envRaise sFoodReady "rice").stored :=
  ⟨(c6_amended envRaise sFoodReady "rice" (by decide)).2.1 (by decide),
   (c6_amended envRaise sFoodReady "rice" (by decide)).1⟩
/-- C8, counterexample: the two variants are observably different on the
very first message: on "Hello" the manual step machine only leaves `start`
and asks for the name, while the graph variant's `collect_user_info`
already extracts "Hello" as the name (and as the location) and asks for the
age, so the same message sequence produces different questions. -/
theorem c8_counterexample :
    manualFirstReply env0 "Hello" = askNameReply
    ∧ graphFirstReply "Hello" = graphAgePrompt "Hello"
    ∧ manualFirstReply env0 "Hello" ≠ graphFirstReply "Hello" := by
  refine ⟨by decide, by decide, by decide⟩

/-- C8, amended: the two variants share the field order and the literal
prompt strings for the four fields, the manual machine keeps
`assistance_type` fixed at "immediate" while the router derives it from
keywords, but they are not functionally equivalent: the graph variant
extracts any recognizable fields from every message (including the first)
before prompting, while the step machine consumes the first message only to
leave `start` and fills exactly one field per message, so the asked
questions diverge (witnessed by the first message "Hello"). -/
theorem c8_amended :
    (∀ n : String, graphAgePrompt n = askAgeReply n)
    ∧ graphNamePrompt = askNameReply
    ∧ graphLocPrompt = askLocReply
    ∧ graphFoodPrompt = askFoodReply
    ∧ (∀ (env : Env) (msgs : List String),
        (runList env initSession msgs).assistance_type = "immediate")
    ∧ routerAssistanceType (routerIntent "i need food later") = "scheduled"
    ∧ routerAssistanceType (routerIntent "Hello") = "immediate"
    ∧ manualFirstReply env0 "Hello" ≠ graphFirstReply "Hello" := by
  refine ⟨fun n => rfl, rfl, rfl, rfl, ?_, by decide, by decide, by decide⟩
  intro env msgs
  rw [assistance_run]
  rfl

/-- C1: over every message sequence processed from a fresh session, the
Fulfillment Dispatcher (the storage insert plus the notification block) is
invoked at most once; it is invoked only on the message that moves the
session from `asking_food_requirement` into `completed` with all four
fields non-null (indeed Python-truthy); and once the session is completed
no later message invokes it again. -/
theorem c1_confirmed (env : Env) (msgs : List String) :
    dispatchCount env initSession msgs ≤ 1
    ∧ (∀ (pre : List String) (m : String),
        (stepLog env (runList env initSession pre) m).storeCalled = true →
          (runList env initSession pre).step = Step.asking_food_requirement
          ∧ (stepS env (runList env initSession pre) m).step = Step.completed
          ∧ allFourSet (stepS env (runList env initSession pre) m))
    ∧ (∀ (pre : List String) (m : String),
        (runList env initSession pre).step = Step.completed →
          (stepLog env (runList env initSession pre) m).storeCalled = false) := by
  refine ⟨dispatchCount_le_one env msgs initSession, ?_, ?_⟩
  · intro pre m hc
    exact storeCalled_shape env _ m hc
  · intro pre m hdone
    have hnd := stepLog_noDispatch env (runList env initSession pre) m
      (by rw [hdone]; decide)
    rw [hnd]
    rfl

/-- C1, witness: a concrete complete conversation dispatches exactly at the
transition into `completed`. -/
theorem c1_witness :
    (stepS env0 (runList env0 initSession ["hi", "John", "30", "Lagos"]) "rice").step
      = Step.completed :=
  ((c1_confirmed env0 ["hi", "John", "30", "Lagos", "rice"]).2.1
    ["hi", "John", "30", "Lagos"] "rice" (by decide)).2.1

/-- C10: whenever a session reached from a fresh session is in
`asking_food_requirement`, its name, age and location are already set
(each waiting state assigns its field, possibly a default, before
advancing); consequently the "some information is missing" branch is
unreachable, the dispatcher is always invoked on the next message, and the
transition into `completed` carries all four fields. -/
theorem c10_confirmed (env : Env) (msgs : List String) (m : String)
    (h : (runList env initSession msgs).step = Step.asking_food_requirement) :
    truthyS (runList env initSession msgs).person_name = true
    ∧ (runList env initSession msgs).age.isSome = true
    ∧ truthyS (runList env initSession msgs).location = true
    ∧ stepReply env (runList env initSession msgs) m ≠ missingReply
    ∧ (stepLog env (runList env initSession msgs) m).storeCalled = true
    ∧ (stepS env (runList env initSession msgs) m).step = Step.completed
    ∧ allFourSet (stepS env (runList env initSession msgs) m) := by
  obtain ⟨h1, h2, h3⟩ := invS_run env msgs initSession invS_init
  have hn : truthyS (runList env initSession msgs).person_name = true :=
    h1 (by rw [h]; decide)
  have ha : (runList env initSession msgs).age.isSome = true :=
    h2 (by rw [h]; decide)
  have hl : truthyS (runList env initSession msgs).location = true :=
    h3 (by rw [h]; decide)
  have hsess := stepSession_food env (runList env initSession msgs) m h
  rcases stepFood_cases env (runList env initSession msgs) (pyStrip m) with
    ⟨hEq, hmiss⟩ | ⟨hEq, hb1, hb2, hb3⟩
  · exfalso
    rcases hmiss with hx | hx | hx
    · rw [hx] at hn
      cases hn
    · rw [hx] at ha
      cases ha
    · rw [hx] at hl
      cases hl
  · refine ⟨hn, ha, hl, ?_, ?_, ?_, ?_⟩
    · unfold stepReply
      rw [hsess, hEq]
      exact confirm_ne_missing _ _
    · unfold stepLog
      rw [hsess, hEq]
    · unfold stepS
      rw [hsess, hEq]
    · unfold stepS
      rw [hsess, hEq]
      exact ⟨hb1, by simpa [Option.isSome_iff_ne_none] using hb2, hb3,
             truthyS_some (foodOf_ne (pyStrip m))⟩

/-- C10, witness: the dispatcher fires on a concrete conversation that
reaches `asking_food_requirement`. -/
theorem c10_witness :
    (stepLog env0 (runList env0 initSession ["hi", "John", "30", "Lagos"]) "rice").storeCalled
      = true :=
  (c10_confirmed env0 ["hi", "John", "30", "Lagos"] "rice" (by decide)).2.2.2.2.1
